import Mathlib

/-!
Verification model of the pyvidsplit repository.

The validation-and-orchestration layer of the repository (duration parsing, input
validation, output-path derivation, quality-preset resolution, and the five
engine-driving orchestration functions in `split_video.py`, `split_audio.py`,
`convert_video.py`, `concat_video.py`, `remove_audio.py`) is shallowly embedded
here.  Python strings are modelled as `List Char`; Python floats are modelled as
exact rationals restricted to finite decimal/scientific literals (no `inf`,
`nan` or digit underscores, which no behaviour under scrutiny depends on); the
moviepy media engine is modelled as a deterministic oracle (`Engine`) recording
a trace of load / trim / encode / close events together with the number of
still-open loaded clips; the filesystem is modelled as a boolean oracle (`FS`).
-/

/-- Python strings are modelled as lists of characters. -/
abbrev PyStr := List Char

/-- Python `str.strip()` for the default whitespace characters. -/
def pyStrip (l : PyStr) : PyStr :=
  ((l.dropWhile Char.isWhitespace).reverse.dropWhile Char.isWhitespace).reverse

/-- Python `str.lower()` (ASCII case folding suffices for the extensions used). -/
def pyLower (l : PyStr) : PyStr := l.map Char.toLower

/-- Python `str.split(sep)` for a single-character separator. -/
def splitOnChar (c : Char) : PyStr → List PyStr
  | [] => [[]]
  | x :: xs =>
    match splitOnChar c xs with
    | [] => [[]]
    | h :: t => if x = c then [] :: h :: t else (x :: h) :: t

/-- Numeric value of a digit run (most significant first). -/
def digitsVal (l : List Char) : ℕ :=
  l.foldl (fun a c => 10 * a + (c.toNat - 48)) 0

/-- Consume an optional leading sign; returns (isNegative, remainder). -/
def takeSign : PyStr → Bool × PyStr
  | '+' :: rest => (false, rest)
  | '-' :: rest => (true, rest)
  | l => (false, l)

/-- Kernel-reducible rational addition (the Batteries `Rat.add` is irreducible). -/
def qAdd (a b : ℚ) : ℚ := mkRat (a.num * b.den + b.num * a.den) (a.den * b.den)

/-- Kernel-reducible rational multiplication. -/
def qMul (a b : ℚ) : ℚ := mkRat (a.num * b.num) (a.den * b.den)

/-- Kernel-reducible embedding of an integer into `ℚ`. -/
def qInt (i : ℤ) : ℚ := mkRat i 1

/--
Model of Python `float(s)` restricted to finite decimal and scientific
literals: optional surrounding whitespace, optional sign, then
`digits [. digits]` or `. digits` or `digits .`, optionally followed by an
exponent `e`/`E`, optional sign, digits.  `inf`, `nan` and digit underscores
are outside the model.  Returns the exact rational value.
-/
def pyFloatCore (l : PyStr) : Option ℚ :=
  let (neg, l1) := takeSign l
  let (ip, r1) := l1.span Char.isDigit
  let mantissa : Option (ℚ × PyStr) :=
    match r1 with
    | '.' :: r2 =>
      let (fp, r3) := r2.span Char.isDigit
      if ip.isEmpty && fp.isEmpty then none
      else some (mkRat (digitsVal ip * 10 ^ fp.length + digitsVal fp) (10 ^ fp.length), r3)
    | _ => if ip.isEmpty then none else some (mkRat (digitsVal ip) 1, r1)
  match mantissa with
  | none => none
  | some (m, rest) =>
    let signed : ℚ := if neg then Rat.neg m else m
    match rest with
    | [] => some signed
    | e :: r =>
      if e = 'e' || e = 'E' then
        let (eneg, r1) := takeSign r
        let (ds, r2) := r1.span Char.isDigit
        if ds.isEmpty || !r2.isEmpty then none
        else if eneg then some (qMul signed (mkRat 1 (10 ^ digitsVal ds)))
        else some (qMul signed (mkRat (10 ^ digitsVal ds) 1))
      else none

/-- Python `float(s)`: strips surrounding whitespace, then parses a literal. -/
def pyFloat (l : PyStr) : Option ℚ := pyFloatCore (pyStrip l)

/-- Model of Python `int(s)`: optional surrounding whitespace, optional sign,
nonempty digit run consuming the whole remainder. -/
def pyInt (l : PyStr) : Option ℤ :=
  let (neg, l1) := takeSign (pyStrip l)
  let (ds, rest) := l1.span Char.isDigit
  if ds.isEmpty || !rest.isEmpty then none
  else some (if neg then -(digitsVal ds : ℤ) else (digitsVal ds : ℤ))

/--
The time-format fallback of `parse_duration` (`split_video.py` lines 47-62):
split on the colon, then the `MM:SS` branch for two parts and the `HH:MM:SS`
branch for three, with a component parse failure or an out-of-range component
(negative, or minutes/seconds at 60 or above) yielding `none`.
-/
def colonParse (s : PyStr) : Option ℚ :=
  match splitOnChar ':' s with
  | [m, sec] =>
    match pyInt m, pyFloat sec with
    | some minutes, some seconds =>
      if 0 ≤ minutes ∧ 0 ≤ seconds ∧ seconds < 60 then
        some (qAdd (qMul (qInt minutes) 60) seconds)
      else none
    | _, _ => none
  | [h, m, sec] =>
    match pyInt h, pyInt m, pyFloat sec with
    | some hours, some minutes, some seconds =>
      if 0 ≤ hours ∧ 0 ≤ minutes ∧ minutes < 60 ∧ 0 ≤ seconds ∧ seconds < 60 then
        some (qAdd (qAdd (qMul (qInt hours) 3600) (qMul (qInt minutes) 60)) seconds)
      else none
    | _, _, _ => none
  | _ => none

/--
`parse_duration` from `split_video.py` lines 19-64 (`split_audio.py` lines
21-66 is an identical copy).  `none` input models Python `None`; the result is
the parsed duration in seconds or `none` for invalid input.  The plain-float
attempt falls through to the colon formats both when the float parse fails and
when its value is not strictly positive, exactly as in the source.
-/
def parse_duration : Option PyStr → Option ℚ
  | none => none
  | some s0 =>
    let s := pyStrip s0
    match pyFloat s with
    | some seconds => if 0 < seconds then some seconds else colonParse s
    | none => colonParse s

/-- Python `pathlib.Path(p).name`: the component after the last slash. -/
def pathBaseName (p : PyStr) : PyStr := (splitOnChar '/' p).getLastD p

/-- The leading directory part of `p`, including the trailing slash (empty when
`p` has no slash); joining it back with a new name models `Path(p).parent / name`. -/
def dirSlice (p : PyStr) : PyStr := p.take (p.length - (pathBaseName p).length)

/-- Python `pathlib.Path(p).suffix`: the extension of the final component,
empty when the name has no interior dot. -/
def pathSuffix (p : PyStr) : PyStr :=
  let n := pathBaseName p
  let t := (n.reverse.takeWhile (fun c => c ≠ '.')).length
  if t = n.length then []
  else
    let i := n.length - 1 - t
    if 0 < i ∧ i < n.length - 1 then n.drop i else []

/-- Python `pathlib.Path(p).stem`: the final component minus `pathSuffix`. -/
def pathStem (p : PyStr) : PyStr :=
  let n := pathBaseName p
  n.take (n.length - (pathSuffix p).length)

/--
`generate_output_filenames` from `split_video.py` lines 98-116 (identical copy
in `split_audio.py` lines 100-118): derives `stem_part1.ext` and
`stem_part2.ext` next to the input.
-/
def generate_output_filenames (input_path : PyStr) : PyStr × PyStr :=
  let dir := dirSlice input_path
  let stem := pathStem input_path
  let suffix := pathSuffix input_path
  (dir ++ stem ++ "_part1".toList ++ suffix, dir ++ stem ++ "_part2".toList ++ suffix)

/-- `generate_output_filename` from `convert_video.py` lines 78-99: replaces the
extension with the (dot-stripped, lowercased) target format. -/
def convert_generate_output_filename (input_path : PyStr) (output_format : PyStr) : PyStr :=
  let fmt := if output_format.head? = some '.' then output_format.drop 1 else output_format
  dirSlice input_path ++ pathStem input_path ++ '.' :: pyLower fmt

/-- `generate_output_filename` from `remove_audio.py` lines 50-67: appends
`_silent` to the stem. -/
def silent_generate_output_filename (input_path : PyStr) : PyStr :=
  dirSlice input_path ++ pathStem input_path ++ "_silent".toList ++ pathSuffix input_path

/-- `generate_output_filename` from `concat_video.py` lines 50-74: joins both
stems with `_concat_`, in the directory and with the extension of the first input. -/
def concat_generate_output_filename (input1_path input2_path : PyStr) : PyStr :=
  dirSlice input1_path ++ pathStem input1_path ++ "_concat_".toList ++ pathStem input2_path
    ++ pathSuffix input1_path

/-- Filesystem oracle: existence, regular-file-ness, readability and absolute
normalisation are opaque boolean/string queries, as the spec requires. -/
structure FS where
  pathExists : PyStr → Bool
  isFile : PyStr → Bool
  readable : PyStr → Bool
  abspath : PyStr → PyStr

/--
Common body of `validate_input_file` (duplicated across all five modules,
e.g. `split_video.py` lines 67-95), parameterised by the extension allow-list
and the kind-specific final message, which are the only differences between
the copies.  `none` models a Python `None` path.
-/
def validate_input_file_core (fs : FS) (allowed : List PyStr) (kindMsg : PyStr)
    (file_path : Option PyStr) : Bool × PyStr :=
  match file_path with
  | none => (false, "Input file path is empty".toList)
  | some p =>
    if pyStrip p = [] then (false, "Input file path is empty".toList)
    else if !fs.pathExists p then (false, "Input file does not exist: ".toList ++ p)
    else if !fs.isFile p then (false, "Path is not a file: ".toList ++ p)
    else if !fs.readable p then (false, "Input file is not readable: ".toList ++ p)
    else if !(allowed.contains (pyLower (pathSuffix p))) then (false, kindMsg ++ p)
    else (true, [])

/-- The six-extension video allow-list of `split_video.py` line 92 and
`concat_video.py` line 44. -/
def videoExts6 : List PyStr :=
  [".mp4".toList, ".avi".toList, ".mov".toList, ".mkv".toList, ".flv".toList, ".wmv".toList]

/-- The eight-extension video allow-list of `convert_video.py` line 45 and
`remove_audio.py` line 44. -/
def videoExts8 : List PyStr := videoExts6 ++ [".webm".toList, ".m4v".toList]

/-- The audio allow-list of `split_audio.py` line 94. -/
def audioExts : List PyStr :=
  [".m4a".toList, ".mp3".toList, ".wav".toList, ".aac".toList, ".flac".toList, ".ogg".toList]

/-- Message tail used by the video validators. -/
def videoKindMsg : PyStr := "File does not appear to be a video file: ".toList

/-- Message tail used by the audio validator. -/
def audioKindMsg : PyStr := "File does not appear to be an audio file: ".toList

/-- `validate_input_file` of `split_video.py` (and `concat_video.py`). -/
def validate_input_file_video (fs : FS) (p : Option PyStr) : Bool × PyStr :=
  validate_input_file_core fs videoExts6 videoKindMsg p

/-- `validate_input_file` of `convert_video.py` (and `remove_audio.py`). -/
def validate_input_file_convert (fs : FS) (p : Option PyStr) : Bool × PyStr :=
  validate_input_file_core fs videoExts8 videoKindMsg p

/-- `validate_input_file` of `split_audio.py`. -/
def validate_input_file_audio (fs : FS) (p : Option PyStr) : Bool × PyStr :=
  validate_input_file_core fs audioExts audioKindMsg p

/-- The CRF quality table of `split_video.py` line 143 and `remove_audio.py`
line 88: `\x7bhigh: 18, medium: 23, low: 28\x7d`, exact-case lookup. -/
def videoQualityMap (q : PyStr) : Option ℕ :=
  if q = "high".toList then some 18
  else if q = "medium".toList then some 23
  else if q = "low".toList then some 28
  else none

/-- The audio bitrate quality table of `split_audio.py` lines 145-149:
`\x7bhigh: 192k, medium: 128k, low: 96k\x7d`, exact-case lookup. -/
def audioQualityMap (q : PyStr) : Option PyStr :=
  if q = "high".toList then some "192k".toList
  else if q = "medium".toList then some "128k".toList
  else if q = "low".toList then some "96k".toList
  else none

/-- The extension-to-codec table of `split_audio.py` lines 157-165, applied to
an already-lowercased extension; unknown extensions fall back to `aac`. -/
def audioCodecForExt (ext : PyStr) : PyStr :=
  if ext = ".m4a".toList then "aac".toList
  else if ext = ".mp3".toList then "libmp3lame".toList
  else if ext = ".wav".toList then "pcm_s16le".toList
  else if ext = ".aac".toList then "aac".toList
  else if ext = ".flac".toList then "flac".toList
  else if ext = ".ogg".toList then "libvorbis".toList
  else "aac".toList

/-- Decimal rendering of a natural number. -/
def natStr (n : ℕ) : PyStr := Nat.toDigits 10 n

/-- Decimal rendering of an integer. -/
def intStr : ℤ → PyStr
  | .ofNat n => natStr n
  | .negSucc n => '-' :: natStr (n + 1)

/-- Rendering of a rational into message text; stands in for the repr of a
Python float inside formatted error messages (the claims under proof depend
only on the literal message text around the number). -/
def ratStr (q : ℚ) : PyStr :=
  if q.den = 1 then intStr q.num else intStr q.num ++ '/' :: natStr q.den

/-- Arguments of one `write_videofile` / `write_audiofile` engine request. -/
structure EncodeArgs where
  path : PyStr
  videoCodec : Option PyStr
  audioCodec : Option PyStr
  crf : Option ℕ
  bitrate : Option PyStr
  audioDisabled : Bool
deriving DecidableEq

/-- One observable request to the external media engine.  `close` is recorded
(and `openHandles` counted) for top-level loaded clips only; closing a derived
subclip or composite releases no separate media stream of its own. -/
inductive EngineEvent where
  | load (path : PyStr)
  | trim (start stop : ℚ)
  | encode (args : EncodeArgs)
  | concatCall
  | close
deriving DecidableEq

/-- Deterministic oracle for the external media engine (moviepy).  `loadFails n`
/ `writeFails n` give the exception text raised by the n-th load / write call
of a run (`none` = the call succeeds); `duration` is the metadata reported for
a loaded path (`none` models `clip.duration is None`). -/
structure Engine where
  moviepyAvailable : Bool
  duration : PyStr → Option ℚ
  hasAudio : PyStr → Bool
  loadFails : ℕ → Option PyStr
  writeFails : ℕ → Option PyStr

/-- Result of one orchestration-function run: the returned `(success, message)`
pair, the engine request trace, and how many loaded clips were never closed. -/
structure RunOutcome where
  success : Bool
  message : PyStr
  events : List EngineEvent
  openHandles : ℕ
deriving DecidableEq

/-- The ImportError message returned when moviepy is missing. -/
def moviepyMissingMsg : PyStr :=
  "moviepy is not installed. Install with: pip install moviepy".toList

/-- The invalid-quality-preset message shared by the orchestrators. -/
def invalidPresetMsg (q : PyStr) : PyStr :=
  "Invalid quality preset: ".toList ++ q
    ++ ". Use \x27high\x27, \x27medium\x27, or \x27low\x27".toList

/-- Text of the Python TypeError raised when a float is compared with None. -/
def typeErrorGeNoneMsg : PyStr :=
  "\x27>=\x27 not supported between instances of \x27float\x27 and \x27NoneType\x27".toList

/--
`split_video` from `split_video.py` lines 119-189.  The body mirrors the
source: moviepy import check, positivity check, quality lookup, then inside
`try`: load, duration check, range check, part-1 trim/encode, close, fresh
reload, part-2 trim/encode, close; any engine exception is caught and
rewrapped with the `Error splitting video: ` prefix — note that a write
exception returns while the loaded clip is still open.
-/
def split_video (eng : Engine) (input_file : PyStr) (duration_seconds : ℚ)
    (output_part1 output_part2 : PyStr) (quality : PyStr) : RunOutcome :=
  if !eng.moviepyAvailable then ⟨false, moviepyMissingMsg, [], 0⟩
  else if duration_seconds ≤ 0 then
    ⟨false, "Duration must be positive, got: ".toList ++ ratStr duration_seconds, [], 0⟩
  else
    match videoQualityMap quality with
    | none => ⟨false, invalidPresetMsg quality, [], 0⟩
    | some crf =>
      match eng.loadFails 0 with
      | some msg => ⟨false, "Error splitting video: ".toList ++ msg, [.load input_file], 0⟩
      | none =>
        match eng.duration input_file with
        | none =>
          ⟨false, "Unable to determine video duration".toList, [.load input_file, .close], 0⟩
        | some total =>
          if duration_seconds ≥ total then
            ⟨false, "Split duration (".toList ++ ratStr duration_seconds
                ++ "s) exceeds video length (".toList ++ ratStr total ++ "s)".toList,
              [.load input_file, .close], 0⟩
          else
            let p1 : EncodeArgs :=
              ⟨output_part1, some "libx264".toList, some "aac".toList, some crf, none, false⟩
            let p2 : EncodeArgs :=
              ⟨output_part2, some "libx264".toList, some "aac".toList, some crf, none, false⟩
            match eng.writeFails 0 with
            | some msg =>
              ⟨false, "Error splitting video: ".toList ++ msg,
                [.load input_file, .trim 0 duration_seconds, .encode p1], 1⟩
            | none =>
              match eng.loadFails 1 with
              | some msg =>
                ⟨false, "Error splitting video: ".toList ++ msg,
                  [.load input_file, .trim 0 duration_seconds, .encode p1, .close,
                    .load input_file], 0⟩
              | none =>
                match eng.writeFails 1 with
                | some msg =>
                  ⟨false, "Error splitting video: ".toList ++ msg,
                    [.load input_file, .trim 0 duration_seconds, .encode p1, .close,
                      .load input_file, .trim duration_seconds total, .encode p2], 1⟩
                | none =>
                  ⟨true, [],
                    [.load input_file, .trim 0 duration_seconds, .encode p1, .close,
                      .load input_file, .trim duration_seconds total, .encode p2, .close], 0⟩

/--
`split_audio` from `split_audio.py` lines 121-230.  Mirrors the source: import
check, positivity check, bitrate lookup, codec chosen from the extension of
`output_part1` only, then load / duration check / close, and one fresh
load-trim-encode-close cycle per part, each inside its own inner `try` whose
handler returns `Failed to create part N: ` + the exception text.  When the
reported duration is `None`, the `>=` comparison raises a TypeError that the
outer handler wraps, returning with the loaded clip still open.
-/
def split_audio (eng : Engine) (input_file : PyStr) (duration_seconds : ℚ)
    (output_part1 output_part2 : PyStr) (quality : PyStr) : RunOutcome :=
  if !eng.moviepyAvailable then ⟨false, moviepyMissingMsg, [], 0⟩
  else if duration_seconds ≤ 0 then
    ⟨false, "Duration must be positive, got: ".toList ++ ratStr duration_seconds, [], 0⟩
  else
    match audioQualityMap quality with
    | none => ⟨false, invalidPresetMsg quality, [], 0⟩
    | some bitrate =>
      let codec := audioCodecForExt (pyLower (pathSuffix output_part1))
      let p1 : EncodeArgs := ⟨output_part1, none, some codec, none, some bitrate, false⟩
      let p2 : EncodeArgs := ⟨output_part2, none, some codec, none, some bitrate, false⟩
      match eng.loadFails 0 with
      | some msg => ⟨false, "Error splitting audio: ".toList ++ msg, [.load input_file], 0⟩
      | none =>
        match eng.duration input_file with
        | none =>
          ⟨false, "Error splitting audio: ".toList ++ typeErrorGeNoneMsg, [.load input_file], 1⟩
        | some total =>
          if duration_seconds ≥ total then
            ⟨false, "Split duration (".toList ++ ratStr duration_seconds
                ++ "s) exceeds audio length (".toList ++ ratStr total ++ "s)".toList,
              [.load input_file, .close], 0⟩
          else
            match eng.loadFails 1 with
            | some msg =>
              ⟨false, "Failed to create part 1: ".toList ++ msg,
                [.load input_file, .close, .load input_file], 0⟩
            | none =>
              match eng.writeFails 0 with
              | some msg =>
                ⟨false, "Failed to create part 1: ".toList ++ msg,
                  [.load input_file, .close, .load input_file, .trim 0 duration_seconds,
                    .encode p1], 1⟩
              | none =>
                match eng.loadFails 2 with
                | some msg =>
                  ⟨false, "Failed to create part 2: ".toList ++ msg,
                    [.load input_file, .close, .load input_file, .trim 0 duration_seconds,
                      .encode p1, .close, .load input_file], 0⟩
                | none =>
                  match eng.writeFails 1 with
                  | some msg =>
                    ⟨false, "Failed to create part 2: ".toList ++ msg,
                      [.load input_file, .close, .load input_file, .trim 0 duration_seconds,
                        .encode p1, .close, .load input_file,
                        .trim duration_seconds total, .encode p2], 1⟩
                  | none =>
                    ⟨true, [],
                      [.load input_file, .close, .load input_file, .trim 0 duration_seconds,
                        .encode p1, .close, .load input_file,
                        .trim duration_seconds total, .encode p2, .close], 0⟩

/-- Codec pair chosen by `convert_video.py` lines 139-149 from the lowercased
output extension. -/
def convert_codec_pair (output_ext : PyStr) : Option PyStr × Option PyStr :=
  if output_ext = ".mp4".toList then (some "libx264".toList, some "aac".toList)
  else if output_ext = ".avi".toList then (some "png".toList, none)
  else if output_ext = ".mov".toList then (some "libx264".toList, some "aac".toList)
  else if output_ext = ".webm".toList then (some "libvpx".toList, some "libvorbis".toList)
  else (some "libx264".toList, some "aac".toList)

/--
`convert_video` from `convert_video.py` lines 102-157: import check, then
load, duration validity check, one encode with the extension-derived codec
pair, close.  A write exception is wrapped with `Error converting video: ` and
returns with the loaded clip still open.
-/
def convert_video (eng : Engine) (input_file output_file : PyStr) : RunOutcome :=
  if !eng.moviepyAvailable then ⟨false, moviepyMissingMsg, [], 0⟩
  else
    match eng.loadFails 0 with
    | some msg => ⟨false, "Error converting video: ".toList ++ msg, [.load input_file], 0⟩
    | none =>
      let badDur : RunOutcome :=
        ⟨false, "Unable to determine video duration: ".toList ++ input_file,
          [.load input_file, .close], 0⟩
      match eng.duration input_file with
      | none => badDur
      | some dur =>
        if dur ≤ 0 then badDur
        else
          let pair := convert_codec_pair (pyLower (pathSuffix output_file))
          let args : EncodeArgs := ⟨output_file, pair.1, pair.2, none, none, false⟩
          match eng.writeFails 0 with
          | some msg =>
            ⟨false, "Error converting video: ".toList ++ msg,
              [.load input_file, .encode args], 1⟩
          | none => ⟨true, [], [.load input_file, .encode args, .close], 0⟩

/--
`concat_videos` from `concat_video.py` lines 77-139: import check, load of
both inputs with per-input duration validity checks, one concat call, one
encode, closes.  An exception while loading the second input or writing the
output is wrapped with `Error concatenating videos: ` and returns with the
already-loaded clips still open.
-/
def concat_videos (eng : Engine) (input_file1 input_file2 output_file : PyStr) : RunOutcome :=
  if !eng.moviepyAvailable then ⟨false, moviepyMissingMsg, [], 0⟩
  else
    match eng.loadFails 0 with
    | some msg => ⟨false, "Error concatenating videos: ".toList ++ msg, [.load input_file1], 0⟩
    | none =>
      match eng.duration input_file1 with
      | none =>
        ⟨false, "Unable to determine duration for video 1: ".toList ++ input_file1,
          [.load input_file1, .close], 0⟩
      | some dur1 =>
        if dur1 ≤ 0 then
          ⟨false, "Unable to determine duration for video 1: ".toList ++ input_file1,
            [.load input_file1, .close], 0⟩
        else
          match eng.loadFails 1 with
          | some msg =>
            ⟨false, "Error concatenating videos: ".toList ++ msg,
              [.load input_file1, .load input_file2], 1⟩
          | none =>
            let badDur2 : RunOutcome :=
              ⟨false, "Unable to determine duration for video 2: ".toList ++ input_file2,
                [.load input_file1, .load input_file2, .close, .close], 0⟩
            match eng.duration input_file2 with
            | none => badDur2
            | some dur2 =>
              if dur2 ≤ 0 then badDur2
              else
                let args : EncodeArgs :=
                  ⟨output_file, some "libx264".toList, some "aac".toList, none, none, false⟩
                match eng.writeFails 0 with
                | some msg =>
                  ⟨false, "Error concatenating videos: ".toList ++ msg,
                    [.load input_file1, .load input_file2, .concatCall, .encode args], 2⟩
                | none =>
                  ⟨true, [],
                    [.load input_file1, .load input_file2, .concatCall, .encode args,
                      .close, .close], 0⟩

/--
`remove_audio` from `remove_audio.py` lines 70-133: import check, quality
lookup, load, duration validity check, audio-track presence query
(informational only), one encode with audio disabled and the resolved CRF,
close.  A write exception is wrapped with `Error removing audio from video: `
and returns with the loaded clip still open.
-/
def remove_audio (eng : Engine) (input_file output_file : PyStr) (quality : PyStr) :
    RunOutcome :=
  if !eng.moviepyAvailable then ⟨false, moviepyMissingMsg, [], 0⟩
  else
    match videoQualityMap quality with
    | none => ⟨false, invalidPresetMsg quality, [], 0⟩
    | some crf =>
      match eng.loadFails 0 with
      | some msg =>
        ⟨false, "Error removing audio from video: ".toList ++ msg, [.load input_file], 0⟩
      | none =>
        let badDur : RunOutcome :=
          ⟨false, "Unable to determine video duration: ".toList ++ input_file,
            [.load input_file, .close], 0⟩
        match eng.duration input_file with
        | none => badDur
        | some dur =>
          if dur ≤ 0 then badDur
          else
            let args : EncodeArgs :=
              ⟨output_file, some "libx264".toList, none, some crf, none, true⟩
            match eng.writeFails 0 with
            | some msg =>
              ⟨false, "Error removing audio from video: ".toList ++ msg,
                [.load input_file, .encode args], 1⟩
            | none => ⟨true, [], [.load input_file, .encode args, .close], 0⟩

/-- Python truthiness of an optional string argument (absent or empty is falsy). -/
def pyTruthy : Option PyStr → Bool
  | none => false
  | some s => !s.isEmpty

/-- Outcome of a `main` pipeline: an early `sys.exit` with the error text, or
the orchestration function invoked with the computed arguments. -/
inductive MainOutcome where
  | exited (code : ℕ) (msg : PyStr)
  | ran (out : RunOutcome)
deriving DecidableEq

/--
`main` of `split_video.py` lines 192-254 after argument parsing: validation,
duration parsing, output-name selection (explicit outputs are used only when
BOTH are supplied, else both parts get derived names), then the split call.
-/
def split_video_main (fs : FS) (eng : Engine) (input durationArg : PyStr)
    (output1 output2 : Option PyStr) (quality : PyStr) : MainOutcome :=
  let v := validate_input_file_video fs (some input)
  if !v.1 then .exited 1 ("Error: ".toList ++ v.2)
  else
    match parse_duration (some durationArg) with
    | none => .exited 1 ("Error: Invalid duration format: ".toList ++ durationArg)
    | some duration =>
      let outputs :=
        if pyTruthy output1 && pyTruthy output2 then (output1.getD [], output2.getD [])
        else generate_output_filenames input
      .ran (split_video eng input duration outputs.1 outputs.2 quality)

/--
`main` of `split_audio.py` lines 233-290 after argument parsing: like the
video variant, but a single explicit output overrides just its own part, the
other part keeping its derived name (lines 271-280).
-/
def split_audio_main (fs : FS) (eng : Engine) (input durationArg : PyStr)
    (output1 output2 : Option PyStr) (quality : PyStr) : MainOutcome :=
  let v := validate_input_file_audio fs (some input)
  if !v.1 then .exited 1 ("Error: ".toList ++ v.2)
  else
    match parse_duration (some durationArg) with
    | none => .exited 1 ("Error: Invalid duration format: ".toList ++ durationArg)
    | some duration =>
      let outputs :=
        if pyTruthy output1 && pyTruthy output2 then (output1.getD [], output2.getD [])
        else
          let d := generate_output_filenames input
          (if pyTruthy output1 then output1.getD [] else d.1,
            if pyTruthy output2 then output2.getD [] else d.2)
      .ran (split_audio eng input duration outputs.1 outputs.2 quality)

/-- The output-format allow-list of `convert_video.py` line 70. -/
def convertFormats : List PyStr :=
  ["mp4".toList, "avi".toList, "mov".toList, "mkv".toList, "flv".toList, "wmv".toList,
    "webm".toList, "m4v".toList]

/-- `validate_output_format` from `convert_video.py` lines 51-75. -/
def validate_output_format (format_str : Option PyStr) : Bool × PyStr :=
  match format_str with
  | none => (false, "Output format is empty".toList)
  | some f0 =>
    if pyStrip f0 = [] then (false, "Output format is empty".toList)
    else
      let f1 := pyLower (pyStrip f0)
      let f2 := if f1.head? = some '.' then f1.drop 1 else f1
      if convertFormats.contains f2 then (true, [])
      else
        (false, "Unsupported output format: ".toList ++ f2
          ++ ". Supported: mp4, avi, mov, mkv, flv, wmv, webm, m4v".toList)

/--
`main` of `convert_video.py` lines 160-230 after argument parsing: input
validation, format validation, output-name selection with extension
re-validation for explicit outputs, rejection of identical absolute
input/output paths (lines 214-219), then the conversion call.
-/
def convert_video_main (fs : FS) (eng : Engine) (input : PyStr)
    (output : Option PyStr) (format : PyStr) : MainOutcome :=
  let v := validate_input_file_convert fs (some input)
  if !v.1 then .exited 1 ("Error: ".toList ++ v.2)
  else
    let vf := validate_output_format (some format)
    if !vf.1 then .exited 1 ("Error: ".toList ++ vf.2)
    else
      let chosen : MainOutcome ⊕ PyStr :=
        if pyTruthy output then
          let output_file := output.getD []
          let output_ext := pyLower (pathSuffix output_file)
          if output_ext = [] then Sum.inr output_file
          else
            let ext_no_dot :=
              if output_ext.head? = some '.' then output_ext.drop 1 else output_ext
            let ve := validate_output_format (some ext_no_dot)
            if !ve.1 then Sum.inl (.exited 1 ("Error in output filename: ".toList ++ ve.2))
            else Sum.inr output_file
        else Sum.inr (convert_generate_output_filename input format)
      match chosen with
      | Sum.inl e => e
      | Sum.inr output_file =>
        if fs.abspath input = fs.abspath output_file then
          .exited 1 ("Error: Input and output files are the same: ".toList ++ output_file)
        else .ran (convert_video eng input output_file)

/--
`main` of `remove_audio.py` lines 136-195 after argument parsing: input
validation, output-name selection with extension allow-list check for
explicit outputs, rejection of identical absolute input/output paths
(lines 179-184), then the audio-removal call.
-/
def remove_audio_main (fs : FS) (eng : Engine) (input : PyStr)
    (output : Option PyStr) (quality : PyStr) : MainOutcome :=
  let v := validate_input_file_convert fs (some input)
  if !v.1 then .exited 1 ("Error: ".toList ++ v.2)
  else
    let chosen : MainOutcome ⊕ PyStr :=
      if pyTruthy output then
        let output_file := output.getD []
        let output_ext := pyLower (pathSuffix output_file)
        if output_ext ≠ [] && !(videoExts8.contains output_ext) then
          Sum.inl (.exited 1 ("Error: Unsupported output file extension: ".toList ++ output_ext))
        else Sum.inr output_file
      else Sum.inr (silent_generate_output_filename input)
    match chosen with
    | Sum.inl e => e
    | Sum.inr output_file =>
      if fs.abspath input = fs.abspath output_file then
        .exited 1 ("Error: Input and output files are the same: ".toList ++ output_file)
      else .ran (remove_audio eng input output_file quality)

/--
`main` of `concat_video.py` lines 142-193 after argument parsing: validation
of both inputs, output-name selection, then the concatenation call.  Unlike
`convert_video.py` and `remove_audio.py`, there is no identical input/output
path rejection anywhere in this pipeline.
-/
def concat_videos_main (fs : FS) (eng : Engine) (input1 input2 : PyStr)
    (output : Option PyStr) : MainOutcome :=
  let v1 := validate_input_file_video fs (some input1)
  if !v1.1 then .exited 1 ("Error with first input: ".toList ++ v1.2)
  else
    let v2 := validate_input_file_video fs (some input2)
    if !v2.1 then .exited 1 ("Error with second input: ".toList ++ v2.2)
    else
      let output_file :=
        if pyTruthy output then output.getD []
        else concat_generate_output_filename input1 input2
      .ran (concat_videos eng input1 input2 output_file)

/-- Demo engine on which every call succeeds and every path reports 100 s. -/
def engOK : Engine :=
  ⟨true, fun _ => some 100, fun _ => true, fun _ => none, fun _ => none⟩

/-- Demo engine whose first write raises `disk full`. -/
def engWriteFail : Engine :=
  ⟨true, fun _ => some 100, fun _ => true, fun _ => none,
    fun n => if n = 0 then some "disk full".toList else none⟩

/-- Demo filesystem: `a.mp4`, `b.mp4` and `a.m4a` are existing readable
regular files; absolute normalisation prepends `/cwd/`. -/
def fsDemo : FS :=
  ⟨fun p => (List.map String.toList ["a.mp4", "b.mp4", "a.m4a"]).contains p,
    fun p => (List.map String.toList ["a.mp4", "b.mp4", "a.m4a"]).contains p,
    fun p => (List.map String.toList ["a.mp4", "b.mp4", "a.m4a"]).contains p,
    fun p => "/cwd/".toList ++ p⟩

/-- Demo engine whose first load raises `cannot open file`. -/
def engLoadFail : Engine :=
  ⟨true, fun _ => some 100, fun _ => true,
    fun n => if n = 0 then some "cannot open file".toList else none, fun _ => none⟩

/-- Demo filesystem for the validator scenarios: `dir` exists but is not a
regular file, `locked.mp4` is a file but unreadable, `a.mp4` and `a.txt` are
readable regular files. -/
def fsScenario : FS :=
  ⟨fun p => (List.map String.toList ["dir", "locked.mp4", "a.mp4", "a.txt"]).contains p,
    fun p => (List.map String.toList ["locked.mp4", "a.mp4", "a.txt"]).contains p,
    fun p => (List.map String.toList ["a.mp4", "a.txt"]).contains p,
    fun p => "/cwd/".toList ++ p⟩

/-- Spec transcription, shape (1) of the Duration Parser contract: a plain
float accepted only if strictly positive. -/
def specShape1 (t : PyStr) : Option ℚ :=
  match pyFloat t with
  | some v => if 0 < v then some v else none
  | none => none

/-- Spec transcription, shape (2): `M:S` with `M` a non-negative integer and
`S` a float in `[0,60)`, yielding `M*60+S`. -/
def specShape2 (t : PyStr) : Option ℚ :=
  match splitOnChar ':' t with
  | [m, sec] =>
    match pyInt m, pyFloat sec with
    | some minutes, some seconds =>
      if 0 ≤ minutes ∧ 0 ≤ seconds ∧ seconds < 60 then
        some (qAdd (qMul (qInt minutes) 60) seconds)
      else none
    | _, _ => none
  | _ => none

/-- Spec transcription, shape (3): `H:M:S` with non-negative integers `H`, `M`
and `M`, `S` in `[0,60)`, yielding `H*3600+M*60+S`. -/
def specShape3 (t : PyStr) : Option ℚ :=
  match splitOnChar ':' t with
  | [h, m, sec] =>
    match pyInt h, pyInt m, pyFloat sec with
    | some hours, some minutes, some seconds =>
      if 0 ≤ hours ∧ 0 ≤ minutes ∧ minutes < 60 ∧ 0 ≤ seconds ∧ seconds < 60 then
        some (qAdd (qAdd (qMul (qInt hours) 3600) (qMul (qInt minutes) 60)) seconds)
      else none
    | _, _, _ => none
  | _ => none

/-- The Duration Parser contract of spec section 4.1, transcribed from the
spec wording for comparison with `parse_duration`: trim whitespace, then
attempt the three accepted shapes in order; everything else is invalid. -/
def specParseDuration : Option PyStr → Option ℚ
  | none => none
  | some s0 =>
    let t := pyStrip s0
    match specShape1 t with
    | some v => some v
    | none =>
      match specShape2 t with
      | some v => some v
      | none => specShape3 t

theorem qAdd_eq (a b : ℚ) : qAdd a b = a + b := by
  have ha : ((a.den : ℚ)) ≠ 0 := by exact_mod_cast a.den_nz
  have hb : ((b.den : ℚ)) ≠ 0 := by exact_mod_cast b.den_nz
  conv_rhs => rw [← Rat.num_div_den a, ← Rat.num_div_den b, div_add_div _ _ ha hb]
  rw [qAdd, Rat.mkRat_eq_div]
  push_cast
  ring

theorem qMul_eq (a b : ℚ) : qMul a b = a * b := by
  conv_rhs => rw [← Rat.num_div_den a, ← Rat.num_div_den b, div_mul_div_comm]
  rw [qMul, Rat.mkRat_eq_div]
  push_cast
  ring

theorem qInt_eq (i : ℤ) : qInt i = (i : ℚ) := by
  rw [qInt, Rat.mkRat_eq_div]
  simp

theorem colonParse_eq_spec_shapes (t : PyStr) :
    colonParse t = (match specShape2 t with
      | some v => some v
      | none => specShape3 t) := by
  unfold colonParse specShape2 specShape3
  cases hc : splitOnChar ':' t with
  | nil => rfl
  | cons a l =>
    cases l with
    | nil => rfl
    | cons b l2 =>
      cases l2 with
      | nil =>
        dsimp only
        cases pyInt a <;> cases pyFloat b <;> dsimp only <;> try rfl
        split_ifs <;> rfl
      | cons c l3 =>
        cases l3 with
        | nil => dsimp only
        | cons d l4 => rfl

/--
C4: `parse_duration` trims surrounding whitespace and accepts exactly the
three shapes of the spec contract — a strictly positive plain float, `M:S`
with non-negative integer `M` and `S` in `[0,60)` yielding `M*60+S`, and
`H:M:S` with non-negative integers `H`, `M` and `M`, `S` in `[0,60)` yielding
`H*3600+M*60+S` — with every other shape or out-of-range component invalid:
it agrees with the spec transcription `specParseDuration` on every input, and
satisfies the five concrete spec examples.
-/
theorem c4_parse_duration_contract :
    (∀ s, parse_duration s = specParseDuration s)
    ∧ parse_duration (some "05:30".toList) = some 330
    ∧ parse_duration (some "01:05:30".toList) = some 3930
    ∧ parse_duration (some "00:60".toList) = none
    ∧ parse_duration (some "-5".toList) = none
    ∧ parse_duration none = none := by
  refine ⟨fun s => ?_, by decide, by decide, by decide, by decide, rfl⟩
  cases s with
  | none => rfl
  | some s0 =>
    simp only [parse_duration, specParseDuration, specShape1]
    cases hf : pyFloat (pyStrip s0) with
    | none => exact colonParse_eq_spec_shapes _
    | some v =>
      by_cases h0 : 0 < v
      · simp [h0]
      · simp only [if_neg h0]
        exact colonParse_eq_spec_shapes _

theorem colonParse_nonneg (t : PyStr) (v : ℚ) (h : colonParse t = some v) : 0 ≤ v := by
  unfold colonParse at h
  split at h
  · split at h
    · rename_i minutes seconds _ _
      split at h
      · rename_i hcond
        cases h
        rw [qAdd_eq, qMul_eq, qInt_eq]
        have hm : (0 : ℚ) ≤ (minutes : ℚ) := by exact_mod_cast hcond.1
        have hs : (0 : ℚ) ≤ seconds := hcond.2.1
        positivity
      · exact absurd h (by simp)
    · exact absurd h (by simp)
  · split at h
    · rename_i hours minutes seconds _ _ _
      split at h
      · rename_i hcond
        cases h
        rw [qAdd_eq, qAdd_eq, qMul_eq, qMul_eq, qInt_eq, qInt_eq]
        have hh : (0 : ℚ) ≤ (hours : ℚ) := by exact_mod_cast hcond.1
        have hm : (0 : ℚ) ≤ (minutes : ℚ) := by exact_mod_cast hcond.2.1
        have hs : (0 : ℚ) ≤ seconds := hcond.2.2.2.1
        positivity
      · exact absurd h (by simp)
    · exact absurd h (by simp)
  · exact absurd h (by simp)

/--
C3 counterexample: the claim says `parse_duration` never returns zero, but the
all-zero colon format `0:00` satisfies the `MM:SS` branch conditions
(`minutes >= 0 and 0 <= seconds < 60`) and yields exactly zero, which is not
strictly positive.
-/
theorem c3_counterexample_zero_duration :
    parse_duration (some "0:00".toList) = some 0 ∧ ¬ (0 : ℚ) < 0 :=
  ⟨by decide, by decide⟩

/--
C3 (amended): for every input string (including null), `parse_duration`
returns either a non-negative number of seconds or the invalid sentinel; it
never returns a negative value (strict positivity fails only for all-zero
`M:S` / `H:M:S` inputs such as `0:00`, which yield zero).
-/
theorem c3_parse_duration_nonneg (s : Option PyStr) (v : ℚ)
    (h : parse_duration s = some v) : 0 ≤ v := by
  cases s with
  | none => exact absurd h (by simp [parse_duration])
  | some s0 =>
    simp only [parse_duration] at h
    split at h
    · rename_i sec hf
      split at h
      · rename_i h0
        cases h
        exact le_of_lt h0
      · exact colonParse_nonneg _ _ h
    · exact colonParse_nonneg _ _ h

/-- Witness for C3 (amended) at the concrete input `300`. -/
theorem c3_parse_duration_nonneg_witness :
    parse_duration (some "300".toList) = some 300 ∧ (0 : ℚ) ≤ 300 :=
  ⟨by decide, c3_parse_duration_nonneg (some "300".toList) 300 (by decide)⟩

/--
C1: for both split orchestrators, a boundary `b ≤ 0` fails with the
duration-must-be-positive message before any engine request at all, and a
boundary `b ≥ total_duration` fails with the exceeds-length message after only
the metadata load/close, with no trim or encode request ever issued — in
particular the out-of-range boundary is never clamped into range (the traces
contain no trim/encode events at all).
-/
theorem c1_split_boundary_validation (eng : Engine) (i o1 o2 q : PyStr) (crf : ℕ)
    (br : PyStr) (d1 d2 T : ℚ)
    (hmp : eng.moviepyAvailable = true)
    (hq : videoQualityMap q = some crf)
    (hqa : audioQualityMap q = some br)
    (hld : eng.loadFails 0 = none)
    (hdur : eng.duration i = some T)
    (hT : 0 < T) (hd1 : d1 ≤ 0) (hd2 : T ≤ d2) :
    split_video eng i d1 o1 o2 q
      = ⟨false, "Duration must be positive, got: ".toList ++ ratStr d1, [], 0⟩
    ∧ split_video eng i d2 o1 o2 q
      = ⟨false, "Split duration (".toList ++ ratStr d2 ++ "s) exceeds video length (".toList
          ++ ratStr T ++ "s)".toList, [.load i, .close], 0⟩
    ∧ split_audio eng i d1 o1 o2 q
      = ⟨false, "Duration must be positive, got: ".toList ++ ratStr d1, [], 0⟩
    ∧ split_audio eng i d2 o1 o2 q
      = ⟨false, "Split duration (".toList ++ ratStr d2 ++ "s) exceeds audio length (".toList
          ++ ratStr T ++ "s)".toList, [.load i, .close], 0⟩ := by
  have hnot : ¬ d2 ≤ 0 := not_le.mpr (lt_of_lt_of_le hT hd2)
  refine ⟨?_, ?_, ?_, ?_⟩
  · simp [split_video, hmp, hd1]
  · simp [split_video, hmp, hnot, hq, hld, hdur, ge_iff_le, hd2]
  · simp [split_audio, hmp, hd1]
  · simp [split_audio, hmp, hnot, hqa, hld, hdur, ge_iff_le, hd2]

/-- Witness for C1 at boundary 0 and boundary 100 against a 100 s medium-quality run. -/
theorem c1_split_boundary_validation_witness :
    split_video engOK "a.mp4".toList 0 "p1.mp4".toList "p2.mp4".toList "medium".toList
      = ⟨false, "Duration must be positive, got: ".toList ++ ratStr 0, [], 0⟩
    ∧ split_video engOK "a.mp4".toList 100 "p1.mp4".toList "p2.mp4".toList "medium".toList
      = ⟨false, "Split duration (".toList ++ ratStr 100 ++ "s) exceeds video length (".toList
          ++ ratStr 100 ++ "s)".toList, [.load "a.mp4".toList, .close], 0⟩
    ∧ split_audio engOK "a.mp4".toList 0 "p1.mp4".toList "p2.mp4".toList "medium".toList
      = ⟨false, "Duration must be positive, got: ".toList ++ ratStr 0, [], 0⟩
    ∧ split_audio engOK "a.mp4".toList 100 "p1.mp4".toList "p2.mp4".toList "medium".toList
      = ⟨false, "Split duration (".toList ++ ratStr 100 ++ "s) exceeds audio length (".toList
          ++ ratStr 100 ++ "s)".toList, [.load "a.mp4".toList, .close], 0⟩ :=
  c1_split_boundary_validation engOK "a.mp4".toList "p1.mp4".toList "p2.mp4".toList
    "medium".toList 23 "128k".toList 0 100 100 rfl (by decide) (by decide) rfl rfl
    (by decide) (by decide) (by decide)

/--
C2 counterexample: when the engine raises during the first write, the claim
says the orchestrator closes every handle it opened before returning, but
`split_video` returns its failure result while the loaded clip is still open
(one open handle remains).
-/
theorem c2_counterexample_write_failure_leaves_handle_open :
    (split_video engWriteFail "a.mp4".toList 40 "p1.mp4".toList "p2.mp4".toList
      "medium".toList).success = false
    ∧ (split_video engWriteFail "a.mp4".toList 40 "p1.mp4".toList "p2.mp4".toList
      "medium".toList).openHandles = 1 :=
  ⟨by decide, by decide⟩

/--
C2 (amended): on every run in which no engine call raises an exception (no
load or write failure, every duration determinable), each of the five
orchestration functions closes every clip it loaded before returning, on
success and validation-failure paths alike; when an engine call does raise
after a load, the function still returns a failure result but may leave that
clip open.
-/
theorem c2_handles_closed_when_no_engine_exception (eng : Engine) (T : PyStr → ℚ)
    (i1 i2 o o1 o2 : PyStr) (d : ℚ) (q : PyStr)
    (hl : ∀ n, eng.loadFails n = none) (hw : ∀ n, eng.writeFails n = none)
    (hdur : ∀ p, eng.duration p = some (T p)) :
    (split_video eng i1 d o1 o2 q).openHandles = 0
    ∧ (split_audio eng i1 d o1 o2 q).openHandles = 0
    ∧ (convert_video eng i1 o).openHandles = 0
    ∧ (concat_videos eng i1 i2 o).openHandles = 0
    ∧ (remove_audio eng i1 o q).openHandles = 0 := by
  refine ⟨?_, ?_, ?_, ?_, ?_⟩
  · simp only [split_video, hl 0, hl 1, hw 0, hw 1, hdur i1]
    repeat' split
    all_goals rfl
  · simp only [split_audio, hl 0, hl 1, hl 2, hw 0, hw 1, hdur i1]
    repeat' split
    all_goals rfl
  · simp only [convert_video, hl 0, hw 0, hdur i1]
    repeat' split
    all_goals rfl
  · simp only [concat_videos, hl 0, hl 1, hw 0, hdur i1, hdur i2]
    repeat' split
    all_goals rfl
  · simp only [remove_audio, hl 0, hw 0, hdur i1]
    repeat' split
    all_goals rfl

/-- Witness for C2 (amended) on the all-successful demo engine. -/
theorem c2_handles_closed_witness :
    (split_video engOK "a.mp4".toList 40 "p1.mp4".toList "p2.mp4".toList
      "medium".toList).openHandles = 0
    ∧ (split_audio engOK "a.mp4".toList 40 "p1.mp4".toList "p2.mp4".toList
      "medium".toList).openHandles = 0
    ∧ (convert_video engOK "a.mp4".toList "o.mp4".toList).openHandles = 0
    ∧ (concat_videos engOK "a.mp4".toList "b.mp4".toList "o.mp4".toList).openHandles = 0
    ∧ (remove_audio engOK "a.mp4".toList "o.mp4".toList "medium".toList).openHandles = 0 :=
  c2_handles_closed_when_no_engine_exception engOK (fun _ => 100) "a.mp4".toList
    "b.mp4".toList "o.mp4".toList "p1.mp4".toList "p2.mp4".toList 40 "medium".toList
    (fun _ => rfl) (fun _ => rfl) (fun _ => rfl)

/--
C5: every orchestration function returns a `(success, message)` pair with the
message empty exactly when success holds (first five conjuncts, over an
arbitrary engine and arguments); engine exceptions during load are caught and
rewrapped with the operation-specific prefix (next five, over any engine whose
first load raises `m`), and engine exceptions during encode likewise (last
five, over any engine whose first write raises `w`); the embedding is a total
function, so no exception ever escapes an orchestrator.
-/
theorem c5_uniform_result_contract (e e1 e2 : Engine) (m w : PyStr) (T : PyStr → ℚ)
    (i i2 o o1 o2 q : PyStr) (crf : ℕ) (br : PyStr) (d : ℚ)
    (h1m : e1.moviepyAvailable = true) (h1l : e1.loadFails 0 = some m)
    (h1q : videoQualityMap q = some crf) (h1qa : audioQualityMap q = some br)
    (h1d : 0 < d)
    (h2m : e2.moviepyAvailable = true) (h2l : ∀ n, e2.loadFails n = none)
    (h2w : e2.writeFails 0 = some w) (h2dur : ∀ p, e2.duration p = some (T p))
    (hTpos : ∀ p, 0 < T p) (h2T : d < T i) :
    (split_video e i d o1 o2 q).success = (split_video e i d o1 o2 q).message.isEmpty
    ∧ (split_audio e i d o1 o2 q).success = (split_audio e i d o1 o2 q).message.isEmpty
    ∧ (convert_video e i o).success = (convert_video e i o).message.isEmpty
    ∧ (concat_videos e i i2 o).success = (concat_videos e i i2 o).message.isEmpty
    ∧ (remove_audio e i o q).success = (remove_audio e i o q).message.isEmpty
    ∧ split_video e1 i d o1 o2 q
      = ⟨false, "Error splitting video: ".toList ++ m, [.load i], 0⟩
    ∧ split_audio e1 i d o1 o2 q
      = ⟨false, "Error splitting audio: ".toList ++ m, [.load i], 0⟩
    ∧ convert_video e1 i o
      = ⟨false, "Error converting video: ".toList ++ m, [.load i], 0⟩
    ∧ concat_videos e1 i i2 o
      = ⟨false, "Error concatenating videos: ".toList ++ m, [.load i], 0⟩
    ∧ remove_audio e1 i o q
      = ⟨false, "Error removing audio from video: ".toList ++ m, [.load i], 0⟩
    ∧ (split_video e2 i d o1 o2 q).success = false
    ∧ (split_video e2 i d o1 o2 q).message = "Error splitting video: ".toList ++ w
    ∧ (split_audio e2 i d o1 o2 q).success = false
    ∧ (split_audio e2 i d o1 o2 q).message = "Failed to create part 1: ".toList ++ w
    ∧ (convert_video e2 i o).success = false
    ∧ (convert_video e2 i o).message = "Error converting video: ".toList ++ w
    ∧ (concat_videos e2 i i2 o).success = false
    ∧ (concat_videos e2 i i2 o).message = "Error concatenating videos: ".toList ++ w
    ∧ (remove_audio e2 i o q).success = false
    ∧ (remove_audio e2 i o q).message = "Error removing audio from video: ".toList ++ w := by
  have hd0 : ¬ d ≤ 0 := not_le.mpr h1d
  have hge : ¬ d ≥ T i := not_le.mpr h2T
  have hconv : ¬ T i ≤ 0 := not_le.mpr (hTpos i)
  have hconc2 : ¬ T i2 ≤ 0 := not_le.mpr (hTpos i2)
  refine ⟨?_, ?_, ?_, ?_, ?_, ?_, ?_, ?_, ?_, ?_, ?_, ?_, ?_, ?_, ?_, ?_, ?_, ?_, ?_, ?_⟩
  · unfold split_video
    repeat' split
    all_goals rfl
  · unfold split_audio
    repeat' split
    all_goals rfl
  · unfold convert_video
    repeat' split
    all_goals rfl
  · unfold concat_videos
    repeat' split
    all_goals rfl
  · unfold remove_audio
    repeat' split
    all_goals rfl
  · simp [split_video, h1m, h1l, h1q, hd0]
  · simp [split_audio, h1m, h1l, h1qa, hd0]
  · simp [convert_video, h1m, h1l]
  · simp [concat_videos, h1m, h1l]
  · simp [remove_audio, h1m, h1l, h1q]
  · simp [split_video, h2m, h2l 0, h2w, h1q, hd0, h2dur i, hge]
  · simp [split_video, h2m, h2l 0, h2w, h1q, hd0, h2dur i, hge]
  · simp [split_audio, h2m, h2l 0, h2l 1, h2w, h1qa, hd0, h2dur i, hge]
  · simp [split_audio, h2m, h2l 0, h2l 1, h2w, h1qa, hd0, h2dur i, hge]
  · simp [convert_video, h2m, h2l 0, h2w, h2dur i, hconv]
  · simp [convert_video, h2m, h2l 0, h2w, h2dur i, hconv]
  · simp [concat_videos, h2m, h2l 0, h2l 1, h2w, h2dur i, h2dur i2, hconv, hconc2]
  · simp [concat_videos, h2m, h2l 0, h2l 1, h2w, h2dur i, h2dur i2, hconv, hconc2]
  · simp [remove_audio, h2m, h2l 0, h2w, h1q, h2dur i, hconv]
  · simp [remove_audio, h2m, h2l 0, h2w, h1q, h2dur i, hconv]

/-- Witness for C5 on the three demo engines at a 40 s boundary. -/
theorem c5_uniform_result_contract_witness :
    (split_video engOK "a.mp4".toList 40 "p1.mp4".toList "p2.mp4".toList
        "medium".toList).success
      = (split_video engOK "a.mp4".toList 40 "p1.mp4".toList "p2.mp4".toList
        "medium".toList).message.isEmpty
    ∧ (split_audio engOK "a.mp4".toList 40 "p1.mp4".toList "p2.mp4".toList
        "medium".toList).success
      = (split_audio engOK "a.mp4".toList 40 "p1.mp4".toList "p2.mp4".toList
        "medium".toList).message.isEmpty
    ∧ (convert_video engOK "a.mp4".toList "o.mp4".toList).success
      = (convert_video engOK "a.mp4".toList "o.mp4".toList).message.isEmpty
    ∧ (concat_videos engOK "a.mp4".toList "b.mp4".toList "o.mp4".toList).success
      = (concat_videos engOK "a.mp4".toList "b.mp4".toList "o.mp4".toList).message.isEmpty
    ∧ (remove_audio engOK "a.mp4".toList "o.mp4".toList "medium".toList).success
      = (remove_audio engOK "a.mp4".toList "o.mp4".toList "medium".toList).message.isEmpty
    ∧ split_video engLoadFail "a.mp4".toList 40 "p1.mp4".toList "p2.mp4".toList
        "medium".toList
      = ⟨false, "Error splitting video: ".toList ++ "cannot open file".toList,
          [.load "a.mp4".toList], 0⟩
    ∧ split_audio engLoadFail "a.mp4".toList 40 "p1.mp4".toList "p2.mp4".toList
        "medium".toList
      = ⟨false, "Error splitting audio: ".toList ++ "cannot open file".toList,
          [.load "a.mp4".toList], 0⟩
    ∧ convert_video engLoadFail "a.mp4".toList "o.mp4".toList
      = ⟨false, "Error converting video: ".toList ++ "cannot open file".toList,
          [.load "a.mp4".toList], 0⟩
    ∧ concat_videos engLoadFail "a.mp4".toList "b.mp4".toList "o.mp4".toList
      = ⟨false, "Error concatenating videos: ".toList ++ "cannot open file".toList,
          [.load "a.mp4".toList], 0⟩
    ∧ remove_audio engLoadFail "a.mp4".toList "o.mp4".toList "medium".toList
      = ⟨false, "Error removing audio from video: ".toList ++ "cannot open file".toList,
          [.load "a.mp4".toList], 0⟩
    ∧ (split_video engWriteFail "a.mp4".toList 40 "p1.mp4".toList "p2.mp4".toList
        "medium".toList).success = false
    ∧ (split_video engWriteFail "a.mp4".toList 40 "p1.mp4".toList "p2.mp4".toList
        "medium".toList).message = "Error splitting video: ".toList ++ "disk full".toList
    ∧ (split_audio engWriteFail "a.mp4".toList 40 "p1.mp4".toList "p2.mp4".toList
        "medium".toList).success = false
    ∧ (split_audio engWriteFail "a.mp4".toList 40 "p1.mp4".toList "p2.mp4".toList
        "medium".toList).message = "Failed to create part 1: ".toList ++ "disk full".toList
    ∧ (convert_video engWriteFail "a.mp4".toList "o.mp4".toList).success = false
    ∧ (convert_video engWriteFail "a.mp4".toList "o.mp4".toList).message
      = "Error converting video: ".toList ++ "disk full".toList
    ∧ (concat_videos engWriteFail "a.mp4".toList "b.mp4".toList "o.mp4".toList).success
      = false
    ∧ (concat_videos engWriteFail "a.mp4".toList "b.mp4".toList "o.mp4".toList).message
      = "Error concatenating videos: ".toList ++ "disk full".toList
    ∧ (remove_audio engWriteFail "a.mp4".toList "o.mp4".toList "medium".toList).success
      = false
    ∧ (remove_audio engWriteFail "a.mp4".toList "o.mp4".toList "medium".toList).message
      = "Error removing audio from video: ".toList ++ "disk full".toList :=
  c5_uniform_result_contract engOK engLoadFail engWriteFail "cannot open file".toList
    "disk full".toList (fun _ => 100) "a.mp4".toList "b.mp4".toList "o.mp4".toList
    "p1.mp4".toList "p2.mp4".toList "medium".toList 23 "128k".toList 40 rfl rfl
    (by decide) (by decide) (by decide) rfl (fun _ => rfl) rfl (fun _ => rfl)
    (fun _ => show (0 : ℚ) < 100 by decide) (by decide)

/--
C6 counterexample: the claim says every operation rejects an output path equal
to the input path before any engine invocation, but the concat pipeline has no
such check — with the output explicitly set to the first input, it proceeds to
the orchestrator, whose very first engine request is the load of that input.
-/
theorem c6_counterexample_concat_same_path_not_rejected :
    concat_videos_main fsDemo engOK "a.mp4".toList "b.mp4".toList (some "a.mp4".toList)
      = .ran (concat_videos engOK "a.mp4".toList "b.mp4".toList "a.mp4".toList)
    ∧ (concat_videos engOK "a.mp4".toList "b.mp4".toList "a.mp4".toList).events.head?
      = some (.load "a.mp4".toList) :=
  ⟨by decide, by decide⟩

/--
C6 (amended): the convert and remove-audio pipelines reject an explicitly
supplied output path whose absolute form equals the absolute input path with
the input-and-output-are-the-same error before any engine invocation; the
concat pipeline (and the split pipelines) perform no such check and proceed to
the engine even when the output equals an input.
-/
theorem c6_same_path_rejection (fs : FS) (eng : Engine) (input i2 out fmt q : PyStr)
    (hvc : (validate_input_file_convert fs (some input)).1 = true)
    (hv1 : (validate_input_file_video fs (some input)).1 = true)
    (hv2 : (validate_input_file_video fs (some i2)).1 = true)
    (hfmt : (validate_output_format (some fmt)).1 = true)
    (hout : out ≠ [])
    (hsuf : pyLower (pathSuffix out) = ".mp4".toList)
    (hsame : fs.abspath input = fs.abspath out) :
    convert_video_main fs eng input (some out) fmt
      = .exited 1 ("Error: Input and output files are the same: ".toList ++ out)
    ∧ remove_audio_main fs eng input (some out) q
      = .exited 1 ("Error: Input and output files are the same: ".toList ++ out)
    ∧ concat_videos_main fs eng input i2 (some out)
      = .ran (concat_videos eng input i2 out) := by
  have htr : pyTruthy (some out) = true := by
    cases out with
    | nil => exact absurd rfl hout
    | cons a l => rfl
  have e1 : (['.', 'm', 'p', '4'] : PyStr) ≠ [] := by decide
  have e2 : (['.', 'm', 'p', '4'] : PyStr).head? = some '.' := by decide
  have e3 : (validate_output_format (some (['m', 'p', '4'] : PyStr))).1 = true := by decide
  have e4 : (['.', 'm', 'p', '4'] : PyStr) ∈ videoExts8 := by decide
  refine ⟨?_, ?_, ?_⟩
  · simp [convert_video_main, hvc, hfmt, htr, hsuf, e1, e2, e3, hsame]
  · simp [remove_audio_main, hvc, htr, hsuf, e4, hsame]
  · simp [concat_videos_main, hv1, hv2, htr]

/-- Witness for C6 (amended) with output `a.mp4` equal to the input. -/
theorem c6_same_path_rejection_witness :
    convert_video_main fsDemo engOK "a.mp4".toList (some "a.mp4".toList) "mp4".toList
      = .exited 1 ("Error: Input and output files are the same: ".toList ++ "a.mp4".toList)
    ∧ remove_audio_main fsDemo engOK "a.mp4".toList (some "a.mp4".toList) "medium".toList
      = .exited 1 ("Error: Input and output files are the same: ".toList ++ "a.mp4".toList)
    ∧ concat_videos_main fsDemo engOK "a.mp4".toList "b.mp4".toList (some "a.mp4".toList)
      = .ran (concat_videos engOK "a.mp4".toList "b.mp4".toList "a.mp4".toList) :=
  c6_same_path_rejection fsDemo engOK "a.mp4".toList "b.mp4".toList "a.mp4".toList
    "mp4".toList "medium".toList (by decide) (by decide) (by decide) (by decide)
    (by decide) (by decide) rfl

/--
C7 counterexample: the claim says an explicit override supplied for only one
of the two split parts is still used for that part, but `split_video.py` uses
explicit outputs only when both are supplied — with `-o1 x.mp4` alone, part 1
runs under the derived name `a_part1.mp4`, not the override.
-/
theorem c7_counterexample_split_video_single_override_ignored :
    split_video_main fsDemo engOK "a.mp4".toList "40".toList (some "x.mp4".toList) none
        "medium".toList
      = .ran (split_video engOK "a.mp4".toList 40 "a_part1.mp4".toList
          "a_part2.mp4".toList "medium".toList)
    ∧ "a_part1.mp4".toList ≠ "x.mp4".toList :=
  ⟨by decide, by decide⟩

/--
C7 (amended): for every operation, an explicitly supplied output path takes
precedence over the derived default name — convert, remove-audio and concat
use the explicit output whenever one is supplied, and split_audio uses an
explicit override for its part even when only one of the two parts is
overridden; the sole exception is split_video, where explicit outputs take
precedence only when both parts are supplied — a single override is ignored
there and both parts fall back to the derived defaults.
-/
theorem c7_output_override_precedence (fs : FS) (eng : Engine)
    (iv ia i2 da s1 s2 o fmt q : PyStr) (d : ℚ)
    (hv : (validate_input_file_video fs (some iv)).1 = true)
    (ha : (validate_input_file_audio fs (some ia)).1 = true)
    (hvc : (validate_input_file_convert fs (some iv)).1 = true)
    (hv2 : (validate_input_file_video fs (some i2)).1 = true)
    (hfmt : (validate_output_format (some fmt)).1 = true)
    (hd : parse_duration (some da) = some d)
    (h1 : s1 ≠ []) (h2 : s2 ≠ [])
    (ho : o ≠ []) (hos : pyLower (pathSuffix o) = ".mp4".toList)
    (hdiffo : fs.abspath iv ≠ fs.abspath o) :
    split_audio_main fs eng ia da (some s1) (some s2) q
      = .ran (split_audio eng ia d s1 s2 q)
    ∧ split_audio_main fs eng ia da (some s1) none q
      = .ran (split_audio eng ia d s1 (generate_output_filenames ia).2 q)
    ∧ split_audio_main fs eng ia da none (some s2) q
      = .ran (split_audio eng ia d (generate_output_filenames ia).1 s2 q)
    ∧ split_video_main fs eng iv da (some s1) (some s2) q
      = .ran (split_video eng iv d s1 s2 q)
    ∧ split_video_main fs eng iv da (some s1) none q
      = .ran (split_video eng iv d (generate_output_filenames iv).1
          (generate_output_filenames iv).2 q)
    ∧ split_video_main fs eng iv da none (some s2) q
      = .ran (split_video eng iv d (generate_output_filenames iv).1
          (generate_output_filenames iv).2 q)
    ∧ convert_video_main fs eng iv (some o) fmt = .ran (convert_video eng iv o)
    ∧ remove_audio_main fs eng iv (some o) q = .ran (remove_audio eng iv o q)
    ∧ concat_videos_main fs eng iv i2 (some o) = .ran (concat_videos eng iv i2 o) := by
  have ht1 : pyTruthy (some s1) = true := by
    cases s1 with
    | nil => exact absurd rfl h1
    | cons a l => rfl
  have ht2 : pyTruthy (some s2) = true := by
    cases s2 with
    | nil => exact absurd rfl h2
    | cons a l => rfl
  have hto : pyTruthy (some o) = true := by
    cases o with
    | nil => exact absurd rfl ho
    | cons a l => rfl
  have htn : pyTruthy none = false := rfl
  have e1 : (['.', 'm', 'p', '4'] : PyStr) ≠ [] := by decide
  have e2 : (['.', 'm', 'p', '4'] : PyStr).head? = some '.' := by decide
  have e3 : (validate_output_format (some (['m', 'p', '4'] : PyStr))).1 = true := by decide
  have e4 : (['.', 'm', 'p', '4'] : PyStr) ∈ videoExts8 := by decide
  refine ⟨?_, ?_, ?_, ?_, ?_, ?_, ?_, ?_, ?_⟩
  · simp [split_audio_main, ha, hd, ht1, ht2]
  · simp [split_audio_main, ha, hd, ht1, htn]
  · simp [split_audio_main, ha, hd, ht2, htn]
  · simp [split_video_main, hv, hd, ht1, ht2]
  · simp [split_video_main, hv, hd, ht1, htn]
  · simp [split_video_main, hv, hd, ht2, htn]
  · simp [convert_video_main, hvc, hfmt, hto, hos, e1, e2, e3, hdiffo]
  · simp [remove_audio_main, hvc, hto, hos, e4, hdiffo]
  · simp [concat_videos_main, hv, hv2, hto]

/-- Witness for C7 (amended) on concrete inputs for all five operations. -/
theorem c7_output_override_precedence_witness :
    split_audio_main fsDemo engOK "a.m4a".toList "40".toList (some "x.mp3".toList)
        (some "y.wav".toList) "medium".toList
      = .ran (split_audio engOK "a.m4a".toList 40 "x.mp3".toList "y.wav".toList
          "medium".toList)
    ∧ split_audio_main fsDemo engOK "a.m4a".toList "40".toList (some "x.mp3".toList) none
        "medium".toList
      = .ran (split_audio engOK "a.m4a".toList 40 "x.mp3".toList
          (generate_output_filenames "a.m4a".toList).2 "medium".toList)
    ∧ split_audio_main fsDemo engOK "a.m4a".toList "40".toList none (some "y.wav".toList)
        "medium".toList
      = .ran (split_audio engOK "a.m4a".toList 40
          (generate_output_filenames "a.m4a".toList).1 "y.wav".toList "medium".toList)
    ∧ split_video_main fsDemo engOK "a.mp4".toList "40".toList (some "x.mp3".toList)
        (some "y.wav".toList) "medium".toList
      = .ran (split_video engOK "a.mp4".toList 40 "x.mp3".toList "y.wav".toList
          "medium".toList)
    ∧ split_video_main fsDemo engOK "a.mp4".toList "40".toList (some "x.mp3".toList) none
        "medium".toList
      = .ran (split_video engOK "a.mp4".toList 40
          (generate_output_filenames "a.mp4".toList).1
          (generate_output_filenames "a.mp4".toList).2 "medium".toList)
    ∧ split_video_main fsDemo engOK "a.mp4".toList "40".toList none (some "y.wav".toList)
        "medium".toList
      = .ran (split_video engOK "a.mp4".toList 40
          (generate_output_filenames "a.mp4".toList).1
          (generate_output_filenames "a.mp4".toList).2 "medium".toList)
    ∧ convert_video_main fsDemo engOK "a.mp4".toList (some "out.mp4".toList) "mp4".toList
      = .ran (convert_video engOK "a.mp4".toList "out.mp4".toList)
    ∧ remove_audio_main fsDemo engOK "a.mp4".toList (some "out.mp4".toList)
        "medium".toList
      = .ran (remove_audio engOK "a.mp4".toList "out.mp4".toList "medium".toList)
    ∧ concat_videos_main fsDemo engOK "a.mp4".toList "b.mp4".toList
        (some "out.mp4".toList)
      = .ran (concat_videos engOK "a.mp4".toList "b.mp4".toList "out.mp4".toList) :=
  c7_output_override_precedence fsDemo engOK "a.mp4".toList "a.m4a".toList "b.mp4".toList
    "40".toList "x.mp3".toList "y.wav".toList "out.mp4".toList "mp4".toList
    "medium".toList 40 (by decide) (by decide) (by decide) (by decide) (by decide)
    (by decide) (by decide) (by decide) (by decide) (by decide) (by decide)

/--
C8: `validate_input_file` checks its five preconditions in a fixed order with
the first failure winning — null/empty/whitespace-only path, nonexistent path,
non-regular-file path, unreadable file, extension outside the allow-list — and
returns valid exactly when all five hold (the final conjunct recovers all five
preconditions from a valid verdict).  Stated for the shared parameterised body
`validate_input_file_core`, of which the per-module validators are instances.
-/
theorem c8_validate_input_file_order (fs : FS) (allowed : List PyStr) (kindMsg : PyStr)
    (pw p2 p3 p4 p5 p6 p7 : PyStr)
    (hw : pyStrip pw = [])
    (h2a : pyStrip p2 ≠ []) (h2b : fs.pathExists p2 = false)
    (h3a : pyStrip p3 ≠ []) (h3b : fs.pathExists p3 = true) (h3c : fs.isFile p3 = false)
    (h4a : pyStrip p4 ≠ []) (h4b : fs.pathExists p4 = true) (h4c : fs.isFile p4 = true)
    (h4d : fs.readable p4 = false)
    (h5a : pyStrip p5 ≠ []) (h5b : fs.pathExists p5 = true) (h5c : fs.isFile p5 = true)
    (h5d : fs.readable p5 = true)
    (h5e : pyLower (pathSuffix p5) ∉ allowed)
    (h6a : pyStrip p6 ≠ []) (h6b : fs.pathExists p6 = true) (h6c : fs.isFile p6 = true)
    (h6d : fs.readable p6 = true)
    (h6e : pyLower (pathSuffix p6) ∈ allowed)
    (h7 : (validate_input_file_core fs allowed kindMsg (some p7)).1 = true) :
    validate_input_file_core fs allowed kindMsg none
      = (false, "Input file path is empty".toList)
    ∧ validate_input_file_core fs allowed kindMsg (some pw)
      = (false, "Input file path is empty".toList)
    ∧ validate_input_file_core fs allowed kindMsg (some p2)
      = (false, "Input file does not exist: ".toList ++ p2)
    ∧ validate_input_file_core fs allowed kindMsg (some p3)
      = (false, "Path is not a file: ".toList ++ p3)
    ∧ validate_input_file_core fs allowed kindMsg (some p4)
      = (false, "Input file is not readable: ".toList ++ p4)
    ∧ validate_input_file_core fs allowed kindMsg (some p5) = (false, kindMsg ++ p5)
    ∧ validate_input_file_core fs allowed kindMsg (some p6) = (true, [])
    ∧ (pyStrip p7 ≠ [] ∧ fs.pathExists p7 = true ∧ fs.isFile p7 = true
        ∧ fs.readable p7 = true ∧ pyLower (pathSuffix p7) ∈ allowed) := by
  refine ⟨rfl, ?_, ?_, ?_, ?_, ?_, ?_, ?_⟩
  · simp [validate_input_file_core, hw]
  · simp [validate_input_file_core, h2a, h2b]
  · simp [validate_input_file_core, h3a, h3b, h3c]
  · simp [validate_input_file_core, h4a, h4b, h4c, h4d]
  · simp [validate_input_file_core, h5a, h5b, h5c, h5d, h5e]
  · simp [validate_input_file_core, h6a, h6b, h6c, h6d, h6e]
  · simp only [validate_input_file_core] at h7
    split_ifs at h7 with c1 c2 c3 c4 c5
    all_goals simp_all

/-- Witness for C8 on the scenario filesystem with the six-extension video
allow-list. -/
theorem c8_validate_input_file_order_witness :
    validate_input_file_core fsScenario videoExts6 videoKindMsg none
      = (false, "Input file path is empty".toList)
    ∧ validate_input_file_core fsScenario videoExts6 videoKindMsg (some "   ".toList)
      = (false, "Input file path is empty".toList)
    ∧ validate_input_file_core fsScenario videoExts6 videoKindMsg (some "missing.mp4".toList)
      = (false, "Input file does not exist: ".toList ++ "missing.mp4".toList)
    ∧ validate_input_file_core fsScenario videoExts6 videoKindMsg (some "dir".toList)
      = (false, "Path is not a file: ".toList ++ "dir".toList)
    ∧ validate_input_file_core fsScenario videoExts6 videoKindMsg (some "locked.mp4".toList)
      = (false, "Input file is not readable: ".toList ++ "locked.mp4".toList)
    ∧ validate_input_file_core fsScenario videoExts6 videoKindMsg (some "a.txt".toList)
      = (false, videoKindMsg ++ "a.txt".toList)
    ∧ validate_input_file_core fsScenario videoExts6 videoKindMsg (some "a.mp4".toList)
      = (true, [])
    ∧ (pyStrip "a.mp4".toList ≠ [] ∧ fsScenario.pathExists "a.mp4".toList = true
        ∧ fsScenario.isFile "a.mp4".toList = true ∧ fsScenario.readable "a.mp4".toList = true
        ∧ pyLower (pathSuffix "a.mp4".toList) ∈ videoExts6) :=
  c8_validate_input_file_order fsScenario videoExts6 videoKindMsg "   ".toList
    "missing.mp4".toList "dir".toList "locked.mp4".toList "a.txt".toList "a.mp4".toList
    "a.mp4".toList (by decide) (by decide) (by decide) (by decide) (by decide) (by decide)
    (by decide) (by decide) (by decide) (by decide) (by decide) (by decide) (by decide)
    (by decide) (by decide) (by decide) (by decide) (by decide) (by decide) (by decide)
    (by decide)

/--
C9: quality preset resolution accepts exactly the case-sensitive strings
`high`, `medium`, `low`, mapping them to CRF 18/23/28 for video and bitrates
192k/128k/96k for audio; any other value is rejected by the lookup and makes
the orchestrators fail with the invalid-quality-preset message naming the
value; and the audio encoding codec is chosen by the fixed extension table
with `aac` for unknown extensions.
-/
theorem c9_quality_preset_resolution (eng : Engine) (i o o1 o2 q e : PyStr) (d : ℚ)
    (hm : eng.moviepyAvailable = true) (hd : 0 < d)
    (hq1 : q ≠ "high".toList) (hq2 : q ≠ "medium".toList) (hq3 : q ≠ "low".toList)
    (he1 : e ≠ ".m4a".toList) (he2 : e ≠ ".mp3".toList) (he3 : e ≠ ".wav".toList)
    (he4 : e ≠ ".aac".toList) (he5 : e ≠ ".flac".toList) (he6 : e ≠ ".ogg".toList) :
    videoQualityMap "high".toList = some 18
    ∧ videoQualityMap "medium".toList = some 23
    ∧ videoQualityMap "low".toList = some 28
    ∧ audioQualityMap "high".toList = some "192k".toList
    ∧ audioQualityMap "medium".toList = some "128k".toList
    ∧ audioQualityMap "low".toList = some "96k".toList
    ∧ videoQualityMap q = none
    ∧ audioQualityMap q = none
    ∧ split_video eng i d o1 o2 q = ⟨false, invalidPresetMsg q, [], 0⟩
    ∧ split_audio eng i d o1 o2 q = ⟨false, invalidPresetMsg q, [], 0⟩
    ∧ remove_audio eng i o q = ⟨false, invalidPresetMsg q, [], 0⟩
    ∧ audioCodecForExt ".m4a".toList = "aac".toList
    ∧ audioCodecForExt ".aac".toList = "aac".toList
    ∧ audioCodecForExt ".mp3".toList = "libmp3lame".toList
    ∧ audioCodecForExt ".wav".toList = "pcm_s16le".toList
    ∧ audioCodecForExt ".flac".toList = "flac".toList
    ∧ audioCodecForExt ".ogg".toList = "libvorbis".toList
    ∧ audioCodecForExt e = "aac".toList := by
  have hq1a : q ≠ (['h', 'i', 'g', 'h'] : PyStr) := hq1
  have hq2a : q ≠ (['m', 'e', 'd', 'i', 'u', 'm'] : PyStr) := hq2
  have hq3a : q ≠ (['l', 'o', 'w'] : PyStr) := hq3
  have hvq : videoQualityMap q = none := by simp [videoQualityMap, hq1a, hq2a, hq3a]
  have haq : audioQualityMap q = none := by simp [audioQualityMap, hq1a, hq2a, hq3a]
  have hd0 : ¬ d ≤ 0 := not_le.mpr hd
  refine ⟨by decide, by decide, by decide, by decide, by decide, by decide, hvq, haq,
    ?_, ?_, ?_, by decide, by decide, by decide, by decide, by decide, by decide, ?_⟩
  · simp [split_video, hm, hd0, hvq]
  · simp [split_audio, hm, hd0, haq]
  · simp [remove_audio, hm, hvq]
  · have k1 : e ≠ (['.', 'm', '4', 'a'] : PyStr) := he1
    have k2 : e ≠ (['.', 'm', 'p', '3'] : PyStr) := he2
    have k3 : e ≠ (['.', 'w', 'a', 'v'] : PyStr) := he3
    have k4 : e ≠ (['.', 'a', 'a', 'c'] : PyStr) := he4
    have k5 : e ≠ (['.', 'f', 'l', 'a', 'c'] : PyStr) := he5
    have k6 : e ≠ (['.', 'o', 'g', 'g'] : PyStr) := he6
    simp [audioCodecForExt, k1, k2, k3, k4, k5, k6]

/-- Witness for C9 at the wrong-case preset `Medium` and the unknown
extension `.xyz`. -/
theorem c9_quality_preset_resolution_witness :
    videoQualityMap "high".toList = some 18
    ∧ videoQualityMap "medium".toList = some 23
    ∧ videoQualityMap "low".toList = some 28
    ∧ audioQualityMap "high".toList = some "192k".toList
    ∧ audioQualityMap "medium".toList = some "128k".toList
    ∧ audioQualityMap "low".toList = some "96k".toList
    ∧ videoQualityMap "Medium".toList = none
    ∧ audioQualityMap "Medium".toList = none
    ∧ split_video engOK "a.mp4".toList 40 "p1.mp4".toList "p2.mp4".toList "Medium".toList
      = ⟨false, invalidPresetMsg "Medium".toList, [], 0⟩
    ∧ split_audio engOK "a.mp4".toList 40 "p1.mp4".toList "p2.mp4".toList "Medium".toList
      = ⟨false, invalidPresetMsg "Medium".toList, [], 0⟩
    ∧ remove_audio engOK "a.mp4".toList "o.mp4".toList "Medium".toList
      = ⟨false, invalidPresetMsg "Medium".toList, [], 0⟩
    ∧ audioCodecForExt ".m4a".toList = "aac".toList
    ∧ audioCodecForExt ".aac".toList = "aac".toList
    ∧ audioCodecForExt ".mp3".toList = "libmp3lame".toList
    ∧ audioCodecForExt ".wav".toList = "pcm_s16le".toList
    ∧ audioCodecForExt ".flac".toList = "flac".toList
    ∧ audioCodecForExt ".ogg".toList = "libvorbis".toList
    ∧ audioCodecForExt ".xyz".toList = "aac".toList :=
  c9_quality_preset_resolution engOK "a.mp4".toList "o.mp4".toList "p1.mp4".toList
    "p2.mp4".toList "Medium".toList ".xyz".toList 40 rfl (by decide) (by decide)
    (by decide) (by decide) (by decide) (by decide) (by decide) (by decide) (by decide)
    (by decide)

/--
C10: in `split_audio` the encoding codec for both output parts is determined
solely by the extension of the part-1 output path — on a successful run whose
part-2 path has a different extension, both encode requests carry the codec
resolved from the part-1 extension.
-/
theorem c10_split_audio_codec_from_part1 (eng : Engine) (i o1 o2 q br : PyStr) (d T : ℚ)
    (hm : eng.moviepyAvailable = true) (hq : audioQualityMap q = some br)
    (hl : ∀ n, eng.loadFails n = none) (hw : ∀ n, eng.writeFails n = none)
    (hdur : eng.duration i = some T) (hd : 0 < d) (hdT : d < T)
    (hdiff : pyLower (pathSuffix o2) ≠ pyLower (pathSuffix o1)) :
    split_audio eng i d o1 o2 q
      = ⟨true, [],
          [.load i, .close, .load i, .trim 0 d,
            .encode ⟨o1, none, some (audioCodecForExt (pyLower (pathSuffix o1))), none,
              some br, false⟩,
            .close, .load i, .trim d T,
            .encode ⟨o2, none, some (audioCodecForExt (pyLower (pathSuffix o1))), none,
              some br, false⟩,
            .close], 0⟩ := by
  simp [split_audio, hm, hq, hl 0, hl 1, hl 2, hw 0, hw 1, hdur, not_le.mpr hd,
    not_le.mpr hdT, ge_iff_le]

/-- Witness for C10 with an `.mp3` part 1 and a `.wav` part 2: both encodes
use `libmp3lame`. -/
theorem c10_split_audio_codec_from_part1_witness :
    split_audio engOK "a.m4a".toList 40 "p1.mp3".toList "p2.wav".toList "medium".toList
      = ⟨true, [],
          [.load "a.m4a".toList, .close, .load "a.m4a".toList, .trim 0 40,
            .encode ⟨"p1.mp3".toList, none,
              some (audioCodecForExt (pyLower (pathSuffix "p1.mp3".toList))), none,
              some "128k".toList, false⟩,
            .close, .load "a.m4a".toList, .trim 40 100,
            .encode ⟨"p2.wav".toList, none,
              some (audioCodecForExt (pyLower (pathSuffix "p1.mp3".toList))), none,
              some "128k".toList, false⟩,
            .close], 0⟩ :=
  c10_split_audio_codec_from_part1 engOK "a.m4a".toList "p1.mp3".toList "p2.wav".toList
    "medium".toList "128k".toList 40 100 rfl (by decide) (fun _ => rfl) (fun _ => rfl)
    rfl (by decide) (by decide) (by decide)
